import Mathlib

/-!
# Electronic device controls

A shallow embedding of `src/source.cpp`: four device classes (`LightControl`,
`ThermostatControl`, `SmartLockControl`, `GarageDoorControl`) that share the
`turnOn` / `turnOff` interface of the CRTP base `ElectronicDeviceControl`, and
the assertion-based self test `runTests`.

Conventions of the embedding.

* An object is a value of a structure holding its private data members.
* A member function that mutates `*this` and writes to `std::cout` is a
  function from the old object to the pair of the new object and the list of
  lines it wrote (each `<< std::endl` ends one line).
* A `const` member function is a function from the object to its result.
* The C++ type `int` is embedded as `Int`.  No operation of the program does
  arithmetic on an `int`, only comparison with the constants 10 and 30 and
  assignment, so no wrap-around can occur; a statement proved for every `Int`
  holds in particular for every value in the range of `int`.
-/

/-! ## The CRTP base class (source lines 6-18) -/

/-- The interface a `Derived` class supplies to `ElectronicDeviceControl<Derived>`:
its own `doTurnOn` and `doTurnOff`. -/
class ElectronicDeviceControl (Derived : Type) where
  /-- The member `Derived::doTurnOn`. -/
  doTurnOn : Derived → Derived × List String
  /-- The member `Derived::doTurnOff`. -/
  doTurnOff : Derived → Derived × List String

namespace ElectronicDeviceControl

/-- The member `turnOn` of the base: `static_cast<Derived*>(this)->doTurnOn()`. -/
def turnOn {Derived : Type} [ElectronicDeviceControl Derived] (self : Derived) :
    Derived × List String :=
  doTurnOn self

/-- The member `turnOff` of the base: `static_cast<Derived*>(this)->doTurnOff()`. -/
def turnOff {Derived : Type} [ElectronicDeviceControl Derived] (self : Derived) :
    Derived × List String :=
  doTurnOff self

end ElectronicDeviceControl

/-! ## LightControl (source lines 21-61) -/

/-- Data members of `LightControl`. -/
structure LightControl where
  isOn : Bool
deriving DecidableEq, Repr

namespace LightControl

/-- Default constructor `LightControl() : isOn(false)`. -/
def new : LightControl :=
  { isOn := false }

/-- The member `doTurnOn`: `isOn = true`, then one line of output. -/
def doTurnOn (self : LightControl) : LightControl × List String :=
  ({ self with isOn := true }, ["Light is ON"])

/-- The member `doTurnOff`: `isOn = false`, then one line of output. -/
def doTurnOff (self : LightControl) : LightControl × List String :=
  ({ self with isOn := false }, ["Light is OFF"])

/-- The member `isLightOn`: `return isOn`. -/
def isLightOn (self : LightControl) : Bool :=
  self.isOn

instance : ElectronicDeviceControl LightControl where
  doTurnOn := doTurnOn
  doTurnOff := doTurnOff

end LightControl

/-! ## ThermostatControl (source lines 64-118) -/

/-- Data members of `ThermostatControl`. -/
structure ThermostatControl where
  isOn : Bool
  temperature : Int
deriving DecidableEq, Repr

namespace ThermostatControl

/-- Default constructor `ThermostatControl() : isOn(false), temperature(20)`. -/
def new : ThermostatControl :=
  { isOn := false, temperature := 20 }

/-- The member `doTurnOn`: `isOn = true`, then one line of output. -/
def doTurnOn (self : ThermostatControl) : ThermostatControl × List String :=
  ({ self with isOn := true }, ["Thermostat is ON"])

/-- The member `doTurnOff`: `isOn = false`, then one line of output. -/
def doTurnOff (self : ThermostatControl) : ThermostatControl × List String :=
  ({ self with isOn := false }, ["Thermostat is OFF"])

/-- The member `setTemperature(int temp)`: when `temp >= 10 && temp <= 30` it
assigns `temperature = temp` and reports the new value; otherwise it only writes
the diagnostic line. -/
def setTemperature (self : ThermostatControl) (temp : Int) :
    ThermostatControl × List String :=
  if temp ≥ 10 && temp ≤ 30 then
    ({ self with temperature := temp },
      ["Thermostat temperature set to: " ++ toString temp])
  else
    (self, ["Invalid temperature. Temperature must be between 10 and 30."])

/-- The member `getTemperature`: `return temperature`. -/
def getTemperature (self : ThermostatControl) : Int :=
  self.temperature

instance : ElectronicDeviceControl ThermostatControl where
  doTurnOn := doTurnOn
  doTurnOff := doTurnOff

end ThermostatControl

/-! ## SmartLockControl (source lines 121-161)

The source names both the data member and its `const` accessor `isLocked`; the
field projection `SmartLockControl.isLocked` stands for both, since the accessor
is `return isLocked`. -/

/-- Data members of `SmartLockControl`. -/
structure SmartLockControl where
  isLocked : Bool
deriving DecidableEq, Repr

namespace SmartLockControl

/-- Default constructor `SmartLockControl() : isLocked(true)`. -/
def new : SmartLockControl :=
  { isLocked := true }

/-- The member `doTurnOn`: `isLocked = false`, then one line of output. -/
def doTurnOn (self : SmartLockControl) : SmartLockControl × List String :=
  ({ self with isLocked := false }, ["Smart Lock is UNLOCKED"])

/-- The member `doTurnOff`: `isLocked = true`, then one line of output. -/
def doTurnOff (self : SmartLockControl) : SmartLockControl × List String :=
  ({ self with isLocked := true }, ["Smart Lock is LOCKED"])

instance : ElectronicDeviceControl SmartLockControl where
  doTurnOn := doTurnOn
  doTurnOff := doTurnOff

end SmartLockControl

/-! ## GarageDoorControl (source lines 164-204)

As for the smart lock, the data member and the accessor share the name
`isOpen`; the field projection stands for both. -/

/-- Data members of `GarageDoorControl`. -/
structure GarageDoorControl where
  isOpen : Bool
deriving DecidableEq, Repr

namespace GarageDoorControl

/-- Default constructor `GarageDoorControl() : isOpen(false)`. -/
def new : GarageDoorControl :=
  { isOpen := false }

/-- The member `doTurnOn`: `isOpen = true`, then one line of output. -/
def doTurnOn (self : GarageDoorControl) : GarageDoorControl × List String :=
  ({ self with isOpen := true }, ["Garage Door is OPEN"])

/-- The member `doTurnOff`: `isOpen = false`, then one line of output. -/
def doTurnOff (self : GarageDoorControl) : GarageDoorControl × List String :=
  ({ self with isOpen := false }, ["Garage Door is CLOSED"])

instance : ElectronicDeviceControl GarageDoorControl where
  doTurnOn := doTurnOn
  doTurnOff := doTurnOff

end GarageDoorControl

/-! ## Sequences of calls on one object -/

/-- A call of the interface shared by all devices. -/
inductive PowerCall where
  | turnOn
  | turnOff
deriving DecidableEq, Repr

/-- Perform one call of the shared interface on a device. -/
def PowerCall.apply {Derived : Type} [ElectronicDeviceControl Derived]
    (c : PowerCall) (self : Derived) : Derived × List String :=
  match c with
  | .turnOn => ElectronicDeviceControl.turnOn self
  | .turnOff => ElectronicDeviceControl.turnOff self

/-- A call of one of the public mutating operations of `ThermostatControl`. -/
inductive ThermostatCall where
  | turnOn
  | turnOff
  | setTemperature (temp : Int)
deriving DecidableEq, Repr

/-- Perform one public operation on a thermostat. -/
def ThermostatCall.apply (c : ThermostatCall) (self : ThermostatControl) :
    ThermostatControl × List String :=
  match c with
  | .turnOn => ElectronicDeviceControl.turnOn self
  | .turnOff => ElectronicDeviceControl.turnOff self
  | .setTemperature temp => self.setTemperature temp

/-- Perform a finite sequence of calls on one object, first call first; the
result is the final object together with everything written meanwhile. -/
def runCalls {Call Obj : Type} (step : Call → Obj → Obj × List String) :
    Obj → List Call → Obj × List String
  | self, [] => (self, [])
  | self, c :: cs =>
    let r := step c self
    let rest := runCalls step r.1 cs
    (rest.1, r.2 ++ rest.2)

/-! ## The self test (source lines 207-249) -/

/-- What is observable of a run of the self test: the lines written to
`std::cout` and the number of `assert` conditions that evaluated to true. -/
structure TestRun where
  cout : List String
  passed : Nat
deriving DecidableEq, Repr

/-- A test is a computation over `TestRun` that either continues or aborts with
the source line of the `assert` that failed. -/
abbrev TestM := StateT TestRun (Except Nat)

/-- The `assert` of `<cassert>` on source line `line`: continues when the
condition is true, aborts the run otherwise. -/
def assert (line : Nat) (cond : Bool) : TestM Unit :=
  if cond then
    modify fun r => { r with passed := r.passed + 1 }
  else
    throw line

/-- A statement `obj.f(...)`: the object is updated and the lines written by
the call are appended to `std::cout`. -/
def call {Obj : Type} (f : Obj → Obj × List String) (obj : Obj) : TestM Obj := do
  let r := f obj
  modify fun t => { t with cout := t.cout ++ r.2 }
  pure r.1

open ElectronicDeviceControl in
/-- The function `runTests`, statement by statement. -/
def runTests : TestM Unit := do
  let light := LightControl.new
  assert 209 (!light.isLightOn)
  let light ← call turnOn light
  assert 212 light.isLightOn
  let light ← call turnOff light
  assert 215 (!light.isLightOn)
  let thermostat := ThermostatControl.new
  assert 218 (thermostat.getTemperature == 20)
  let thermostat ← call (fun s => s.setTemperature 25) thermostat
  assert 221 (thermostat.getTemperature == 25)
  let thermostat ← call (fun s => s.setTemperature 35) thermostat
  assert 224 (thermostat.getTemperature == 25)
  let thermostat ← call turnOn thermostat
  assert 227 (thermostat.getTemperature == 25)
  let thermostat ← call turnOff thermostat
  assert 230 (thermostat.getTemperature == 25)
  let smartLock := SmartLockControl.new
  assert 233 smartLock.isLocked
  let smartLock ← call turnOn smartLock
  assert 236 (!smartLock.isLocked)
  let smartLock ← call turnOff smartLock
  assert 239 smartLock.isLocked
  let garageDoor := GarageDoorControl.new
  assert 242 (!garageDoor.isOpen)
  let garageDoor ← call turnOn garageDoor
  assert 245 garageDoor.isOpen
  let garageDoor ← call turnOff garageDoor
  assert 248 (!garageDoor.isOpen)

/-- The lines `runTests` writes when no assertion fails. -/
def runTestsOutput : List String :=
  ["Light is ON", "Light is OFF",
   "Thermostat temperature set to: 25",
   "Invalid temperature. Temperature must be between 10 and 30.",
   "Thermostat is ON", "Thermostat is OFF",
   "Smart Lock is UNLOCKED", "Smart Lock is LOCKED",
   "Garage Door is OPEN", "Garage Door is CLOSED"]

/-! ## Copy and move operations (the "Rule of Five" members)

These members relate two objects, `*this` and `other`, which need not be
distinct: both assignment operators test `this != &other`. Objects therefore
live in a memory indexed by addresses, and each member is a function from the
memory before the call to the memory after it. The member-initialiser list of a
constructor and the statements of a body are performed in source order. -/

/-- A memory holding one object of type `Obj` at every address. -/
abbrev Memory (Obj : Type) := Nat → Obj

/-- The memory after the object at address `a` has been given the value `v`. -/
def Memory.set {Obj : Type} (mem : Memory Obj) (a : Nat) (v : Obj) : Memory Obj :=
  fun b => if b = a then v else mem b

namespace LightControl

/-- Copy constructor `LightControl(const LightControl& other) : isOn(other.isOn)`. -/
def copyConstruct (mem : Memory LightControl) (this other : Nat) : Memory LightControl :=
  mem.set this { isOn := (mem other).isOn }

/-- Copy assignment `operator=(const LightControl& other)`. -/
def copyAssign (mem : Memory LightControl) (this other : Nat) : Memory LightControl :=
  if this ≠ other then
    mem.set this { mem this with isOn := (mem other).isOn }
  else
    mem

/-- Move constructor `LightControl(LightControl&& other) : isOn(other.isOn)`
with body `other.isOn = false`. -/
def moveConstruct (mem : Memory LightControl) (this other : Nat) : Memory LightControl :=
  let mem := mem.set this { isOn := (mem other).isOn }
  mem.set other { mem other with isOn := false }

/-- Move assignment `operator=(LightControl&& other)`. -/
def moveAssign (mem : Memory LightControl) (this other : Nat) : Memory LightControl :=
  if this ≠ other then
    let mem := mem.set this { mem this with isOn := (mem other).isOn }
    mem.set other { mem other with isOn := false }
  else
    mem

end LightControl

namespace ThermostatControl

/-- Copy constructor
`ThermostatControl(const ThermostatControl& other) : isOn(other.isOn), temperature(other.temperature)`. -/
def copyConstruct (mem : Memory ThermostatControl) (this other : Nat) :
    Memory ThermostatControl :=
  mem.set this { isOn := (mem other).isOn, temperature := (mem other).temperature }

/-- Copy assignment `operator=(const ThermostatControl& other)`. -/
def copyAssign (mem : Memory ThermostatControl) (this other : Nat) :
    Memory ThermostatControl :=
  if this ≠ other then
    let mem := mem.set this { mem this with isOn := (mem other).isOn }
    mem.set this { mem this with temperature := (mem other).temperature }
  else
    mem

/-- Move constructor
`ThermostatControl(ThermostatControl&& other) : isOn(other.isOn), temperature(other.temperature)`
with body `other.isOn = false; other.temperature = 0`. -/
def moveConstruct (mem : Memory ThermostatControl) (this other : Nat) :
    Memory ThermostatControl :=
  let mem := mem.set this { isOn := (mem other).isOn, temperature := (mem other).temperature }
  let mem := mem.set other { mem other with isOn := false }
  mem.set other { mem other with temperature := 0 }

/-- Move assignment `operator=(ThermostatControl&& other)`. -/
def moveAssign (mem : Memory ThermostatControl) (this other : Nat) :
    Memory ThermostatControl :=
  if this ≠ other then
    let mem := mem.set this { mem this with isOn := (mem other).isOn }
    let mem := mem.set this { mem this with temperature := (mem other).temperature }
    let mem := mem.set other { mem other with isOn := false }
    mem.set other { mem other with temperature := 0 }
  else
    mem

end ThermostatControl

namespace SmartLockControl

/-- Copy constructor `SmartLockControl(const SmartLockControl& other) : isLocked(other.isLocked)`. -/
def copyConstruct (mem : Memory SmartLockControl) (this other : Nat) :
    Memory SmartLockControl :=
  mem.set this { isLocked := (mem other).isLocked }

/-- Copy assignment `operator=(const SmartLockControl& other)`. -/
def copyAssign (mem : Memory SmartLockControl) (this other : Nat) :
    Memory SmartLockControl :=
  if this ≠ other then
    mem.set this { mem this with isLocked := (mem other).isLocked }
  else
    mem

/-- Move constructor `SmartLockControl(SmartLockControl&& other) : isLocked(other.isLocked)`
with body `other.isLocked = true`. -/
def moveConstruct (mem : Memory SmartLockControl) (this other : Nat) :
    Memory SmartLockControl :=
  let mem := mem.set this { isLocked := (mem other).isLocked }
  mem.set other { mem other with isLocked := true }

/-- Move assignment `operator=(SmartLockControl&& other)`. -/
def moveAssign (mem : Memory SmartLockControl) (this other : Nat) :
    Memory SmartLockControl :=
  if this ≠ other then
    let mem := mem.set this { mem this with isLocked := (mem other).isLocked }
    mem.set other { mem other with isLocked := true }
  else
    mem

end SmartLockControl

namespace GarageDoorControl

/-- Copy constructor `GarageDoorControl(const GarageDoorControl& other) : isOpen(other.isOpen)`. -/
def copyConstruct (mem : Memory GarageDoorControl) (this other : Nat) :
    Memory GarageDoorControl :=
  mem.set this { isOpen := (mem other).isOpen }

/-- Copy assignment `operator=(const GarageDoorControl& other)`. -/
def copyAssign (mem : Memory GarageDoorControl) (this other : Nat) :
    Memory GarageDoorControl :=
  if this ≠ other then
    mem.set this { mem this with isOpen := (mem other).isOpen }
  else
    mem

/-- Move constructor `GarageDoorControl(GarageDoorControl&& other) : isOpen(other.isOpen)`
with body `other.isOpen = false`. -/
def moveConstruct (mem : Memory GarageDoorControl) (this other : Nat) :
    Memory GarageDoorControl :=
  let mem := mem.set this { isOpen := (mem other).isOpen }
  mem.set other { mem other with isOpen := false }

/-- Move assignment `operator=(GarageDoorControl&& other)`. -/
def moveAssign (mem : Memory GarageDoorControl) (this other : Nat) :
    Memory GarageDoorControl :=
  if this ≠ other then
    let mem := mem.set this { mem this with isOpen := (mem other).isOpen }
    mem.set other { mem other with isOpen := false }
  else
    mem

end GarageDoorControl

/-! ## Reference description of the final temperature -/

/-- The arguments of the `setTemperature` calls of a sequence that lie in the
range from 10 to 30, in call order. -/
def validTemperatures : List ThermostatCall → List Int
  | [] => []
  | .setTemperature temp :: cs =>
    if 10 ≤ temp ∧ temp ≤ 30 then temp :: validTemperatures cs else validTemperatures cs
  | _ :: cs => validTemperatures cs

/-- The argument of the last `setTemperature` call of the sequence whose argument
lies in the range from 10 to 30, or 20 when the sequence has no such call. -/
def lastValidTemperature (cs : List ThermostatCall) : Int :=
  (validTemperatures cs).getLast?.getD 20

/-! ## Theorems -/

/-! ### Auxiliary facts -/

open ElectronicDeviceControl

/-- The temperature lies in the closed range from 10 to 30. -/
def ThermostatControl.InRange (self : ThermostatControl) : Prop :=
  10 ≤ self.getTemperature ∧ self.getTemperature ≤ 30

instance (self : ThermostatControl) : Decidable self.InRange := by
  unfold ThermostatControl.InRange
  infer_instance

theorem ThermostatControl.setTemperature_of_valid (self : ThermostatControl) (temp : Int)
    (h₁ : 10 ≤ temp) (h₂ : temp ≤ 30) :
    (self.setTemperature temp).1 = { self with temperature := temp } := by
  simp [ThermostatControl.setTemperature, h₁, h₂]

theorem ThermostatControl.setTemperature_of_invalid (self : ThermostatControl) (temp : Int)
    (h : temp < 10 ∨ 30 < temp) :
    (self.setTemperature temp).1 = self := by
  have hc : ¬ (10 ≤ temp ∧ temp ≤ 30) := by omega
  simp [ThermostatControl.setTemperature, hc]

theorem ThermostatControl.turnOn_temperature (self : ThermostatControl) :
    (turnOn self).1.getTemperature = self.getTemperature :=
  rfl

theorem ThermostatControl.turnOff_temperature (self : ThermostatControl) :
    (turnOff self).1.getTemperature = self.getTemperature :=
  rfl

/-- Every public operation of the thermostat keeps the temperature in range. -/
theorem ThermostatCall.apply_inRange (c : ThermostatCall) (self : ThermostatControl)
    (h : self.InRange) : (c.apply self).1.InRange := by
  cases c with
  | turnOn => exact h
  | turnOff => exact h
  | setTemperature temp =>
    by_cases hv : 10 ≤ temp ∧ temp ≤ 30
    · show (self.setTemperature temp).1.InRange
      rw [ThermostatControl.setTemperature_of_valid self temp hv.1 hv.2]
      exact hv
    · show (self.setTemperature temp).1.InRange
      rw [ThermostatControl.setTemperature_of_invalid self temp (by omega)]
      exact h

/-- A property of the object kept by every single call holds after every
sequence of calls. -/
theorem runCalls_preserves {Call Obj : Type} (step : Call → Obj → Obj × List String)
    (P : Obj → Prop) (hstep : ∀ c o, P o → P (step c o).1) :
    ∀ (cs : List Call) (o : Obj), P o → P (runCalls step o cs).1 := by
  intro cs
  induction cs with
  | nil => intro o h; exact h
  | cons c cs ih => intro o h; exact ih (step c o).1 (hstep c o h)

/-- An `assert` whose condition is false aborts the run with its source line. -/
theorem assert_false_aborts (line : Nat) (r : TestRun) :
    (assert line false).run r = Except.error line :=
  rfl

/-- An `assert` whose condition is true lets the run continue and is counted. -/
theorem assert_true_continues (line : Nat) (r : TestRun) :
    (assert line true).run r = Except.ok ((), { r with passed := r.passed + 1 }) :=
  rfl

/-- The state after a sequence of calls followed by one more call is the state
that call gives from the state after the sequence. -/
theorem runCalls_concat {Call Obj : Type} (step : Call → Obj → Obj × List String)
    (c : Call) : ∀ (cs : List Call) (o : Obj),
    (runCalls step o (cs ++ [c])).1 = (step c (runCalls step o cs).1).1 := by
  intro cs
  induction cs with
  | nil => intro o; rfl
  | cons d cs ih => intro o; exact ih (step d o).1

/-- The success line of `setTemperature` is never the diagnostic line: the two
differ in their first character. -/
theorem setTemperature_lines_differ (temp : Int) :
    "Thermostat temperature set to: " ++ toString temp ≠
      "Invalid temperature. Temperature must be between 10 and 30." := by
  intro h
  have hd := congrArg String.data h
  rw [String.data_append] at hd
  simp at hd

theorem ThermostatControl.setTemperature_out_of_valid (self : ThermostatControl) (temp : Int)
    (h₁ : 10 ≤ temp) (h₂ : temp ≤ 30) :
    (self.setTemperature temp).2 = ["Thermostat temperature set to: " ++ toString temp] := by
  simp [ThermostatControl.setTemperature, h₁, h₂]

theorem ThermostatControl.setTemperature_out_of_invalid (self : ThermostatControl) (temp : Int)
    (h : ¬ (10 ≤ temp ∧ temp ≤ 30)) :
    (self.setTemperature temp).2 =
      ["Invalid temperature. Temperature must be between 10 and 30."] := by
  simp [ThermostatControl.setTemperature, h]

/-- The number in the success line is printed in decimal, with a minus sign when
negative, as `std::cout << temp` prints an `int`. -/
theorem setTemperature_output_examples :
    (ThermostatControl.new.setTemperature 25).2 = ["Thermostat temperature set to: 25"] ∧
      (ThermostatControl.new.setTemperature 10).2 = ["Thermostat temperature set to: 10"] ∧
      toString (-5 : Int) = "-5" ∧
      (ThermostatControl.new.setTemperature (-5)).2 =
        ["Invalid temperature. Temperature must be between 10 and 30."] := by
  refine ⟨rfl, rfl, rfl, rfl⟩

theorem Memory.set_same {Obj : Type} (mem : Memory Obj) (a : Nat) (v : Obj) :
    mem.set a v a = v := by
  simp [Memory.set]

theorem Memory.set_other {Obj : Type} (mem : Memory Obj) (a b : Nat) (v : Obj) (h : b ≠ a) :
    mem.set a v b = mem b := by
  simp [Memory.set, h]

/-- With one more element in front, the last element falls back on that element
instead of on the default. -/
theorem getLast?_cons_getD (x d : Int) (xs : List Int) :
    (x :: xs).getLast?.getD d = xs.getLast?.getD x := by
  cases xs with
  | nil => rfl
  | cons y ys =>
    rw [List.getLast?_cons_cons, List.getLast?_eq_getLast (y :: ys) (List.cons_ne_nil y ys)]
    rfl

/-- From any starting state, the final temperature is the last valid argument of
the sequence, or the starting temperature when there is none. -/
theorem runCalls_temperature (cs : List ThermostatCall) :
    ∀ self : ThermostatControl,
      (runCalls ThermostatCall.apply self cs).1.getTemperature =
        (validTemperatures cs).getLast?.getD self.getTemperature := by
  induction cs with
  | nil => intro self; rfl
  | cons c cs ih =>
    intro self
    show (runCalls ThermostatCall.apply (c.apply self).1 cs).1.getTemperature = _
    rw [ih]
    cases c with
    | turnOn => rfl
    | turnOff => rfl
    | setTemperature temp =>
      by_cases hv : 10 ≤ temp ∧ temp ≤ 30
      · have hs : ((ThermostatCall.setTemperature temp).apply self).1 =
            { self with temperature := temp } :=
          ThermostatControl.setTemperature_of_valid self temp hv.1 hv.2
        rw [hs]
        simp only [validTemperatures, hv, and_self, if_true]
        rw [getLast?_cons_getD]
        rfl
      · have hs : ((ThermostatCall.setTemperature temp).apply self).1 = self :=
          ThermostatControl.setTemperature_of_invalid self temp (by omega)
        rw [hs]
        simp only [validTemperatures, hv, if_false]

/-! ### Thermostat -/

/-- C1. Starting from a default-constructed thermostat, after every call of any
finite sequence of `turnOn()`, `turnOff()` and `setTemperature(t)` calls (the
state after the first `n` calls, for every `n`), `getTemperature()` is at least
10 and at most 30. -/
theorem thermostat_range_invariant (cs : List ThermostatCall) (n : Nat) :
    10 ≤ (runCalls ThermostatCall.apply ThermostatControl.new (cs.take n)).1.getTemperature ∧
      (runCalls ThermostatCall.apply ThermostatControl.new (cs.take n)).1.getTemperature ≤ 30 :=
  runCalls_preserves ThermostatCall.apply ThermostatControl.InRange
    ThermostatCall.apply_inRange (cs.take n) ThermostatControl.new (by decide)

/-- C2. For every thermostat state and every `t` with `10 ≤ t ≤ 30`, after
`setTemperature(t)` the accessor `getTemperature()` returns `t`. -/
theorem setTemperature_valid_get (self : ThermostatControl) (t : Int)
    (h₁ : 10 ≤ t) (h₂ : t ≤ 30) :
    (self.setTemperature t).1.getTemperature = t := by
  rw [ThermostatControl.setTemperature_of_valid self t h₁ h₂]
  rfl

/-- Instances of C2 at both bounds, 10 and 30, from a state holding another
temperature. -/
theorem setTemperature_valid_get_witness :
    ((ThermostatControl.mk true 25).setTemperature 10).1.getTemperature = 10 ∧
      (ThermostatControl.new.setTemperature 30).1.getTemperature = 30 :=
  ⟨setTemperature_valid_get (ThermostatControl.mk true 25) 10 (by decide) (by decide),
    setTemperature_valid_get ThermostatControl.new 30 (by decide) (by decide)⟩

/-- C3. For every thermostat state and every `t` with `t < 10` or `t > 30`,
`setTemperature(t)` leaves the whole object unchanged: the temperature read by
`getTemperature()` and the on flag are what they were before the call. -/
theorem setTemperature_invalid_unchanged (self : ThermostatControl) (t : Int)
    (h : t < 10 ∨ t > 30) :
    (self.setTemperature t).1 = self ∧
      (self.setTemperature t).1.getTemperature = self.getTemperature ∧
      (self.setTemperature t).1.isOn = self.isOn := by
  have hs : (self.setTemperature t).1 = self :=
    ThermostatControl.setTemperature_of_invalid self t (by omega)
  rw [hs]
  exact ⟨rfl, rfl, rfl⟩

/-- Instance of C3 at `t = 35` on a thermostat that is on at 25 degrees. -/
theorem setTemperature_invalid_unchanged_witness :
    ((35 : Int) < 10 ∨ (35 : Int) > 30) ∧
      ((ThermostatControl.mk true 25).setTemperature 35).1 = ThermostatControl.mk true 25 ∧
      ((ThermostatControl.mk true 25).setTemperature 35).1.getTemperature =
        (ThermostatControl.mk true 25).getTemperature ∧
      ((ThermostatControl.mk true 25).setTemperature 35).1.isOn =
        (ThermostatControl.mk true 25).isOn :=
  ⟨by decide, setTemperature_invalid_unchanged (ThermostatControl.mk true 25) 35 (by decide)⟩

/-- C4. For every thermostat state, `turnOn()` and `turnOff()` each leave
`getTemperature()` as it was, and so does every finite sequence of `turnOn()` and
`turnOff()` calls. -/
theorem thermostat_power_keeps_temperature (self : ThermostatControl) :
    (turnOn self).1.getTemperature = self.getTemperature ∧
      (turnOff self).1.getTemperature = self.getTemperature ∧
      ∀ cs : List PowerCall,
        (runCalls PowerCall.apply self cs).1.getTemperature = self.getTemperature := by
  refine ⟨rfl, rfl, fun cs => ?_⟩
  refine runCalls_preserves PowerCall.apply
    (fun o : ThermostatControl => o.getTemperature = self.getTemperature) ?_ cs self rfl
  intro c o ho
  cases c with
  | turnOn => exact ho
  | turnOff => exact ho

/-! ### Smart lock, garage door, light -/

/-- C5. For every lock state, after `turnOn()` the accessor `isLocked()` is
false, and after `turnOff()` it is true. -/
theorem smartLock_inverted_semantics (self : SmartLockControl) :
    (turnOn self).1.isLocked = false ∧ (turnOff self).1.isLocked = true :=
  ⟨rfl, rfl⟩

/-- C6. The default-constructed devices are in the documented initial states:
the light is off, the thermostat is off at 20 degrees, the lock is locked and the
garage door is closed. -/
theorem default_constructed_states :
    LightControl.new.isLightOn = false ∧
      ThermostatControl.new.isOn = false ∧
      ThermostatControl.new.getTemperature = 20 ∧
      SmartLockControl.new.isLocked = true ∧
      GarageDoorControl.new.isOpen = false :=
  ⟨rfl, rfl, rfl, rfl, rfl⟩

/-- C7, as stated, fails. A light that is on (the state `turnOn()` gives from the
default-constructed light), a lock that is unlocked and a door that is open each
end `turnOn()` then `turnOff()` with the opposite boolean value. -/
theorem turnOn_turnOff_not_restoring :
    (turnOn LightControl.new).1 = LightControl.mk true ∧
      (turnOff (turnOn (LightControl.mk true)).1).1.isLightOn ≠
        (LightControl.mk true).isLightOn ∧
      (turnOff (turnOn (SmartLockControl.mk false)).1).1.isLocked ≠
        (SmartLockControl.mk false).isLocked ∧
      (turnOff (turnOn (GarageDoorControl.mk true)).1).1.isOpen ≠
        (GarageDoorControl.mk true).isOpen := by
  decide

/-- C7, amended. For every starting state of the light, the smart lock and the
garage door, `turnOn()` then `turnOff()` ends in the off state of the device
(light off, lock locked, door closed), which is the boolean value before the two
calls exactly when the device started in that state, as a default-constructed
device does. -/
theorem turnOn_turnOff_gives_off_state (l : LightControl) (k : SmartLockControl)
    (g : GarageDoorControl) :
    ((turnOff (turnOn l).1).1.isLightOn = false ∧
        ((turnOff (turnOn l).1).1.isLightOn = l.isLightOn ↔ l.isLightOn = false)) ∧
      ((turnOff (turnOn k).1).1.isLocked = true ∧
        ((turnOff (turnOn k).1).1.isLocked = k.isLocked ↔ k.isLocked = true)) ∧
      ((turnOff (turnOn g).1).1.isOpen = false ∧
        ((turnOff (turnOn g).1).1.isOpen = g.isOpen ↔ g.isOpen = false)) := by
  have hl : (turnOff (turnOn l).1).1.isLightOn = false := rfl
  have hk : (turnOff (turnOn k).1).1.isLocked = true := rfl
  have hg : (turnOff (turnOn g).1).1.isOpen = false := rfl
  rw [hl, hk, hg]
  exact ⟨⟨rfl, eq_comm⟩, ⟨rfl, eq_comm⟩, ⟨rfl, eq_comm⟩⟩

/-- C8. Run from freshly default-constructed devices, `runTests` completes
without a failed assertion: all 14 `assert` conditions evaluate to true and the
ten status lines are written. In the thermostat scenario the temperature is 20,
then 25 after `setTemperature(25)`, still 25 after `setTemperature(35)`, after
`turnOn()` and after `turnOff()`. -/
theorem runTests_passes :
    runTests.run { cout := [], passed := 0 } =
        Except.ok ((), { cout := runTestsOutput, passed := 14 }) ∧
      ThermostatControl.new.getTemperature = 20 ∧
      (ThermostatControl.new.setTemperature 25).1.getTemperature = 25 ∧
      (((ThermostatControl.new.setTemperature 25).1.setTemperature 35).1).getTemperature = 25 ∧
      (turnOn ((ThermostatControl.new.setTemperature 25).1.setTemperature 35).1).1.getTemperature
        = 25 ∧
      (turnOff (turnOn
        ((ThermostatControl.new.setTemperature 25).1.setTemperature 35).1).1).1.getTemperature
        = 25 :=
  ⟨rfl, rfl, by decide, by decide, by decide, by decide⟩

/-- C9. For every door state, after `turnOn()` the accessor `isOpen()` is true,
and after `turnOff()` it is false. -/
theorem garageDoor_turnOn_turnOff (self : GarageDoorControl) :
    (turnOn self).1.isOpen = true ∧ (turnOff self).1.isOpen = false :=
  ⟨rfl, rfl⟩

/-- C10. For every light state, after `turnOn()` the accessor `isLightOn()` is
true, and after `turnOff()` it is false. -/
theorem light_turnOn_turnOff (self : LightControl) :
    (turnOn self).1.isLightOn = true ∧ (turnOff self).1.isLightOn = false :=
  ⟨rfl, rfl⟩

/-! ### Reporting, on flag and call sequences of the thermostat -/

/-- C11. For every thermostat state and every `t`, `setTemperature(t)` writes
exactly one line: the success line "Thermostat temperature set to: " followed by
`t` if and only if `10 ≤ t ≤ 30`, and the invalid-temperature diagnostic line
if and only if not. The call always returns (the function is total; the body has
no `throw`). -/
theorem setTemperature_reports (self : ThermostatControl) (t : Int) :
    ((self.setTemperature t).2 = ["Thermostat temperature set to: " ++ toString t] ↔
        10 ≤ t ∧ t ≤ 30) ∧
      ((self.setTemperature t).2 =
          ["Invalid temperature. Temperature must be between 10 and 30."] ↔
        ¬ (10 ≤ t ∧ t ≤ 30)) ∧
      (self.setTemperature t).2.length = 1 := by
  by_cases hv : 10 ≤ t ∧ t ≤ 30
  · rw [ThermostatControl.setTemperature_out_of_valid self t hv.1 hv.2]
    refine ⟨⟨fun _ => hv, fun _ => rfl⟩, ⟨fun h => ?_, fun h => absurd hv h⟩, rfl⟩
    exact absurd (List.singleton_inj.mp h) (setTemperature_lines_differ t)
  · rw [ThermostatControl.setTemperature_out_of_invalid self t hv]
    refine ⟨⟨fun h => ?_, fun h => absurd h hv⟩, ⟨fun _ => hv, fun _ => rfl⟩, rfl⟩
    exact absurd (List.singleton_inj.mp h).symm (setTemperature_lines_differ t)

/-- C12. For every thermostat state, after `turnOn()` the on flag is true and
after `turnOff()` the on flag is false, whatever it was before the call. -/
theorem thermostat_on_flag (self : ThermostatControl) :
    (turnOn self).1.isOn = true ∧ (turnOff self).1.isOn = false :=
  ⟨rfl, rfl⟩

/-- C13, evaluated where it fails. A default-constructed thermostat at address 1
holds 20 degrees, within the bound. Moving from it, by move construction or by
move assignment into the object at address 0, gives the destination 20 degrees
and leaves the moved-from object with `getTemperature()` equal to 0, outside the
bound. -/
theorem moved_from_thermostat_out_of_range :
    ((fun _ => ThermostatControl.new) 1).InRange ∧
      (ThermostatControl.moveConstruct (fun _ => ThermostatControl.new) 0 1 0).InRange ∧
      (ThermostatControl.moveConstruct (fun _ => ThermostatControl.new) 0 1 1).getTemperature
        = 0 ∧
      ¬ (ThermostatControl.moveConstruct (fun _ => ThermostatControl.new) 0 1 1).InRange ∧
      (ThermostatControl.moveAssign (fun _ => ThermostatControl.new) 0 1 0).InRange ∧
      (ThermostatControl.moveAssign (fun _ => ThermostatControl.new) 0 1 1).getTemperature
        = 0 ∧
      ¬ (ThermostatControl.moveAssign (fun _ => ThermostatControl.new) 0 1 1).InRange := by
  decide

/-- C14. For every finite sequence of `turnOn()`, `turnOff()` and
`setTemperature(t)` calls on a default-constructed thermostat, the final
`getTemperature()` is the argument of the last `setTemperature` call whose
argument lies in the range from 10 to 30, or 20 if there is no such call. -/
theorem last_valid_write_wins (cs : List ThermostatCall) :
    (runCalls ThermostatCall.apply ThermostatControl.new cs).1.getTemperature =
      lastValidTemperature cs :=
  runCalls_temperature cs ThermostatControl.new

/-- C17. For every thermostat state and every `t`, in range or not, the on flag
after `setTemperature(t)` is the on flag before the call. -/
theorem setTemperature_keeps_on_flag (self : ThermostatControl) (t : Int) :
    (self.setTemperature t).1.isOn = self.isOn := by
  by_cases hv : 10 ≤ t ∧ t ≤ 30
  · rw [ThermostatControl.setTemperature_of_valid self t hv.1 hv.2]
  · rw [ThermostatControl.setTemperature_of_invalid self t (by omega)]

/-! ### Sequences of turnOn and turnOff on all devices -/

/-- C15. After any non-empty sequence of `turnOn()` / `turnOff()` calls, from
any starting state, the light is on, the thermostat is on, the lock is unlocked
and the garage door is open if and only if the last call was `turnOn()`. Both
operations are idempotent on every device: calling one twice in a row gives the
same state as calling it once. -/
theorem power_state_is_last_call (cs : List PowerCall) (h : cs ≠ [])
    (l : LightControl) (t : ThermostatControl) (k : SmartLockControl)
    (g : GarageDoorControl) :
    (((runCalls PowerCall.apply l cs).1.isLightOn = true ↔ cs.getLast? = some .turnOn) ∧
        ((runCalls PowerCall.apply t cs).1.isOn = true ↔ cs.getLast? = some .turnOn) ∧
        ((runCalls PowerCall.apply k cs).1.isLocked = false ↔ cs.getLast? = some .turnOn) ∧
        ((runCalls PowerCall.apply g cs).1.isOpen = true ↔ cs.getLast? = some .turnOn)) ∧
      ((turnOn (turnOn l).1).1 = (turnOn l).1 ∧ (turnOff (turnOff l).1).1 = (turnOff l).1) ∧
      ((turnOn (turnOn t).1).1 = (turnOn t).1 ∧ (turnOff (turnOff t).1).1 = (turnOff t).1) ∧
      ((turnOn (turnOn k).1).1 = (turnOn k).1 ∧ (turnOff (turnOff k).1).1 = (turnOff k).1) ∧
      ((turnOn (turnOn g).1).1 = (turnOn g).1 ∧ (turnOff (turnOff g).1).1 = (turnOff g).1) := by
  refine ⟨?_, ⟨rfl, rfl⟩, ⟨rfl, rfl⟩, ⟨rfl, rfl⟩, ⟨rfl, rfl⟩⟩
  rcases List.eq_nil_or_concat cs with hnil | ⟨init, c, rfl⟩
  · exact absurd hnil h
  · rw [List.concat_eq_append, List.getLast?_concat, runCalls_concat, runCalls_concat,
      runCalls_concat, runCalls_concat]
    cases c with
    | turnOn => exact ⟨⟨fun _ => rfl, fun _ => rfl⟩, ⟨fun _ => rfl, fun _ => rfl⟩,
        ⟨fun _ => rfl, fun _ => rfl⟩, ⟨fun _ => rfl, fun _ => rfl⟩⟩
    | turnOff =>
      refine ⟨⟨fun hc => ?_, fun hc => ?_⟩, ⟨fun hc => ?_, fun hc => ?_⟩,
        ⟨fun hc => ?_, fun hc => ?_⟩, ⟨fun hc => ?_, fun hc => ?_⟩⟩ <;>
      first
        | exact absurd (show false = true from hc) (by decide)
        | exact absurd (show true = false from hc) (by decide)
        | exact absurd (Option.some.inj hc) (by decide)

/-- Instance of C15 on the sequence `turnOff(); turnOn()` applied to devices
that start on, on at 25 degrees, unlocked and open. -/
theorem power_state_is_last_call_witness :
    [PowerCall.turnOff, PowerCall.turnOn] ≠ [] ∧
      (runCalls PowerCall.apply (LightControl.mk true)
        [PowerCall.turnOff, PowerCall.turnOn]).1.isLightOn = true ∧
      (runCalls PowerCall.apply (ThermostatControl.mk true 25)
        [PowerCall.turnOff, PowerCall.turnOn]).1.isOn = true ∧
      (runCalls PowerCall.apply (SmartLockControl.mk false)
        [PowerCall.turnOff, PowerCall.turnOn]).1.isLocked = false ∧
      (runCalls PowerCall.apply (GarageDoorControl.mk true)
        [PowerCall.turnOff, PowerCall.turnOn]).1.isOpen = true :=
  have hw := (power_state_is_last_call [PowerCall.turnOff, PowerCall.turnOn] (by decide)
    (LightControl.mk true) (ThermostatControl.mk true 25) (SmartLockControl.mk false)
    (GarageDoorControl.mk true)).1
  ⟨by decide, hw.1.mpr rfl, hw.2.1.mpr rfl, hw.2.2.1.mpr rfl, hw.2.2.2.mpr rfl⟩

/-! ### Copy and move -/

theorem LightControl.light_move_distinct (mem : Memory LightControl) (this other : Nat)
    (h : this ≠ other) :
    (moveConstruct mem this other this = mem other ∧
        moveConstruct mem this other other = { isOn := false }) ∧
      (moveAssign mem this other this = mem other ∧
        moveAssign mem this other other = { isOn := false }) := by
  have h2 : other ≠ this := fun e => h e.symm
  simp [moveConstruct, moveAssign, Memory.set, h, h2]

theorem LightControl.light_copy_any (mem : Memory LightControl) (this other : Nat) :
    (copyConstruct mem this other this = mem other ∧
        copyConstruct mem this other other = mem other) ∧
      (copyAssign mem this other this = mem other ∧
        copyAssign mem this other other = mem other) := by
  by_cases h : this = other
  · subst h
    simp [copyConstruct, copyAssign, Memory.set]
  · have h2 : other ≠ this := fun e => h e.symm
    simp [copyConstruct, copyAssign, Memory.set, h, h2]

theorem ThermostatControl.thermostat_move_distinct (mem : Memory ThermostatControl)
    (this other : Nat) (h : this ≠ other) :
    (moveConstruct mem this other this = mem other ∧
        moveConstruct mem this other other = { isOn := false, temperature := 0 }) ∧
      (moveAssign mem this other this = mem other ∧
        moveAssign mem this other other = { isOn := false, temperature := 0 }) := by
  have h2 : other ≠ this := fun e => h e.symm
  simp [moveConstruct, moveAssign, Memory.set, h, h2]

theorem ThermostatControl.thermostat_copy_any (mem : Memory ThermostatControl)
    (this other : Nat) :
    (copyConstruct mem this other this = mem other ∧
        copyConstruct mem this other other = mem other) ∧
      (copyAssign mem this other this = mem other ∧
        copyAssign mem this other other = mem other) := by
  by_cases h : this = other
  · subst h
    simp [copyConstruct, copyAssign, Memory.set]
  · have h2 : other ≠ this := fun e => h e.symm
    simp [copyConstruct, copyAssign, Memory.set, h, h2]

/-- Where the range bound survives copy and move: from a source within the
bound, the destination of each of the four operations is within the bound, and
so is the source after a copy. The source after a move holds 0 and is not. -/
theorem ThermostatControl.range_after_copy_move (mem : Memory ThermostatControl)
    (this other : Nat) (h : this ≠ other) (hr : (mem other).InRange) :
    (copyConstruct mem this other this).InRange ∧
      (copyConstruct mem this other other).InRange ∧
      (copyAssign mem this other this).InRange ∧
      (copyAssign mem this other other).InRange ∧
      (moveConstruct mem this other this).InRange ∧
      (moveAssign mem this other this).InRange ∧
      ¬ (moveConstruct mem this other other).InRange ∧
      ¬ (moveAssign mem this other other).InRange := by
  have hc := ThermostatControl.thermostat_copy_any mem this other
  have hm := ThermostatControl.thermostat_move_distinct mem this other h
  rw [hc.1.1, hc.1.2, hc.2.1, hc.2.2, hm.1.1, hm.1.2, hm.2.1, hm.2.2]
  exact ⟨hr, hr, hr, hr, hr, hr, by decide, by decide⟩

theorem SmartLockControl.smartLock_move_distinct (mem : Memory SmartLockControl) (this other : Nat)
    (h : this ≠ other) :
    (moveConstruct mem this other this = mem other ∧
        moveConstruct mem this other other = { isLocked := true }) ∧
      (moveAssign mem this other this = mem other ∧
        moveAssign mem this other other = { isLocked := true }) := by
  have h2 : other ≠ this := fun e => h e.symm
  simp [moveConstruct, moveAssign, Memory.set, h, h2]

theorem SmartLockControl.smartLock_copy_any (mem : Memory SmartLockControl) (this other : Nat) :
    (copyConstruct mem this other this = mem other ∧
        copyConstruct mem this other other = mem other) ∧
      (copyAssign mem this other this = mem other ∧
        copyAssign mem this other other = mem other) := by
  by_cases h : this = other
  · subst h
    simp [copyConstruct, copyAssign, Memory.set]
  · have h2 : other ≠ this := fun e => h e.symm
    simp [copyConstruct, copyAssign, Memory.set, h, h2]

theorem GarageDoorControl.garageDoor_move_distinct (mem : Memory GarageDoorControl)
    (this other : Nat) (h : this ≠ other) :
    (moveConstruct mem this other this = mem other ∧
        moveConstruct mem this other other = { isOpen := false }) ∧
      (moveAssign mem this other this = mem other ∧
        moveAssign mem this other other = { isOpen := false }) := by
  have h2 : other ≠ this := fun e => h e.symm
  simp [moveConstruct, moveAssign, Memory.set, h, h2]

theorem GarageDoorControl.garageDoor_copy_any (mem : Memory GarageDoorControl)
    (this other : Nat) :
    (copyConstruct mem this other this = mem other ∧
        copyConstruct mem this other other = mem other) ∧
      (copyAssign mem this other this = mem other ∧
        copyAssign mem this other other = mem other) := by
  by_cases h : this = other
  · subst h
    simp [copyConstruct, copyAssign, Memory.set]
  · have h2 : other ≠ this := fun e => h e.symm
    simp [copyConstruct, copyAssign, Memory.set, h, h2]

/-- C16. For each device and two distinct objects `this` and `other`, after move
construction or move assignment the destination holds the state the source had
before, and the source is left in a fixed state: light off, thermostat off with
temperature 0, lock locked, door closed. After copy construction or copy
assignment, between any two objects, the destination holds the source's state
and the source is unchanged. -/
theorem move_transfers_copy_preserves (this other : Nat) (h : this ≠ other)
    (ml : Memory LightControl) (mt : Memory ThermostatControl)
    (mk : Memory SmartLockControl) (mg : Memory GarageDoorControl) :
    (((LightControl.moveConstruct ml this other this = ml other ∧
          LightControl.moveConstruct ml this other other = { isOn := false }) ∧
        (LightControl.moveAssign ml this other this = ml other ∧
          LightControl.moveAssign ml this other other = { isOn := false })) ∧
      ((ThermostatControl.moveConstruct mt this other this = mt other ∧
          ThermostatControl.moveConstruct mt this other other =
            { isOn := false, temperature := 0 }) ∧
        (ThermostatControl.moveAssign mt this other this = mt other ∧
          ThermostatControl.moveAssign mt this other other =
            { isOn := false, temperature := 0 })) ∧
      ((SmartLockControl.moveConstruct mk this other this = mk other ∧
          SmartLockControl.moveConstruct mk this other other = { isLocked := true }) ∧
        (SmartLockControl.moveAssign mk this other this = mk other ∧
          SmartLockControl.moveAssign mk this other other = { isLocked := true })) ∧
      ((GarageDoorControl.moveConstruct mg this other this = mg other ∧
          GarageDoorControl.moveConstruct mg this other other = { isOpen := false }) ∧
        (GarageDoorControl.moveAssign mg this other this = mg other ∧
          GarageDoorControl.moveAssign mg this other other = { isOpen := false }))) ∧
      ∀ dst src : Nat,
        ((LightControl.copyConstruct ml dst src dst = ml src ∧
            LightControl.copyConstruct ml dst src src = ml src) ∧
          (LightControl.copyAssign ml dst src dst = ml src ∧
            LightControl.copyAssign ml dst src src = ml src)) ∧
        ((ThermostatControl.copyConstruct mt dst src dst = mt src ∧
            ThermostatControl.copyConstruct mt dst src src = mt src) ∧
          (ThermostatControl.copyAssign mt dst src dst = mt src ∧
            ThermostatControl.copyAssign mt dst src src = mt src)) ∧
        ((SmartLockControl.copyConstruct mk dst src dst = mk src ∧
            SmartLockControl.copyConstruct mk dst src src = mk src) ∧
          (SmartLockControl.copyAssign mk dst src dst = mk src ∧
            SmartLockControl.copyAssign mk dst src src = mk src)) ∧
        ((GarageDoorControl.copyConstruct mg dst src dst = mg src ∧
            GarageDoorControl.copyConstruct mg dst src src = mg src) ∧
          (GarageDoorControl.copyAssign mg dst src dst = mg src ∧
            GarageDoorControl.copyAssign mg dst src src = mg src)) :=
  ⟨⟨LightControl.light_move_distinct ml this other h,
      ThermostatControl.thermostat_move_distinct mt this other h,
      SmartLockControl.smartLock_move_distinct mk this other h,
      GarageDoorControl.garageDoor_move_distinct mg this other h⟩,
    fun dst src =>
      ⟨LightControl.light_copy_any ml dst src,
        ThermostatControl.thermostat_copy_any mt dst src,
        SmartLockControl.smartLock_copy_any mk dst src,
        GarageDoorControl.garageDoor_copy_any mg dst src⟩⟩

/-- Instance of C16 for the move operations from address 1 into address 0, where
every source is in its non-default state (light on, thermostat on at 25 degrees,
lock unlocked, door open). -/
theorem move_transfers_copy_preserves_witness :
    (0 : Nat) ≠ 1 ∧
      (LightControl.moveConstruct (fun _ => ⟨true⟩) 0 1 0 = ⟨true⟩ ∧
        LightControl.moveConstruct (fun _ => ⟨true⟩) 0 1 1 = ⟨false⟩) ∧
      (ThermostatControl.moveAssign (fun _ => ⟨true, 25⟩) 0 1 0 = ⟨true, 25⟩ ∧
        ThermostatControl.moveAssign (fun _ => ⟨true, 25⟩) 0 1 1 = ⟨false, 0⟩) ∧
      (SmartLockControl.moveAssign (fun _ => ⟨false⟩) 0 1 0 = ⟨false⟩ ∧
        SmartLockControl.moveAssign (fun _ => ⟨false⟩) 0 1 1 = ⟨true⟩) ∧
      (GarageDoorControl.moveConstruct (fun _ => ⟨true⟩) 0 1 0 = ⟨true⟩ ∧
        GarageDoorControl.moveConstruct (fun _ => ⟨true⟩) 0 1 1 = ⟨false⟩) :=
  have hw := (move_transfers_copy_preserves 0 1 (by decide) (fun _ => ⟨true⟩)
    (fun _ => ⟨true, 25⟩) (fun _ => ⟨false⟩) (fun _ => ⟨true⟩)).1
  ⟨by decide, hw.1.1, hw.2.1.2, hw.2.2.1.2, hw.2.2.2.1⟩
